import Mathlib

/-!
# Verification of the SMS auto-responder decision pipeline

A shallow embedding of the core decision pipeline of the repository:
the rate limiter (`src/core/rate_limiter.py`), the guardrail validator
(`src/services/guardrails.py`), the template renderer
(`src/rules/templates.py`), the rules engine (`src/rules/engine.py`),
and the response orchestrator (`src/services/ai_responder.py`).

Modelling conventions:
* Wall-clock time (Python `time.time()` / `datetime.now()`) is an explicit
  `ℚ` parameter `now`; the several `time.time()` calls inside one Python
  method are modelled as reading the same instant.
* Python floats are modelled as `ℚ`; Python `int()` truncation is
  truncation toward zero; Python `//` is floor division (`Int.fdiv`).
* Python dicts are modelled as association lists in insertion order.
* `random.choice` is modelled by an explicit natural-number draw that
  selects an index modulo the list length.
* Text handled by the guardrail/template code is modelled as `List Char`;
  Python `len`, slicing (including negative bounds) and `str.rfind` are
  reproduced on lists.
* Division by zero (a `ZeroDivisionError` in Python) yields `0` in `ℚ`;
  no claim below exercises that path.
-/

/-- Python `d.get(k, default)` on an insertion-ordered dict. -/
def dictGetD {α : Type} [BEq α] {β : Type} (l : List (α × β)) (k : α) (d : β) : β :=
  (l.lookup k).getD d

/-- Python `d[k] = v`: update the entry in place if the key is present,
otherwise append it (insertion order preserved). -/
def dictSet {α : Type} [BEq α] [DecidableEq α] {β : Type}
    (l : List (α × β)) (k : α) (v : β) : List (α × β) :=
  if (l.lookup k).isSome then l.map (fun p => if p.1 = k then (k, v) else p)
  else l ++ [(k, v)]

/-- Python `int(x)` on a float: truncation toward zero (`ℤ` T-division). -/
def pyInt (q : ℚ) : ℤ := q.num / (q.den : ℤ)

/-- `TokenBucket` from `src/core/rate_limiter.py`: capacity, refill rate
(tokens per second), current fractional tokens, last refill timestamp. -/
structure TokenBucket where
  capacity : ℚ
  refill_rate : ℚ
  tokens : ℚ
  last_refill : ℚ
deriving DecidableEq

/-- `TokenBucket._refill`: tokens grow with elapsed time, capped at
capacity; the refill timestamp advances to `now`. -/
def TokenBucket.refill (b : TokenBucket) (now : ℚ) : TokenBucket :=
  { b with
    tokens := min b.capacity (b.tokens + (now - b.last_refill) * b.refill_rate)
    last_refill := now }

/-- `TokenBucket.consume`: refill, then take `req` tokens if available;
returns `(success, wait_time)` and the updated bucket (the refill persists
even when consumption fails). -/
def TokenBucket.consume (b : TokenBucket) (req : ℚ) (now : ℚ) :
    (Bool × ℚ) × TokenBucket :=
  let b := b.refill now
  if req ≤ b.tokens then ((true, 0), { b with tokens := b.tokens - req })
  else ((false, (req - b.tokens) / b.refill_rate), b)

/-- `TokenBucket.get_state`: refill, then report `(tokens, last_refill)`. -/
def TokenBucket.get_state (b : TokenBucket) (now : ℚ) : (ℚ × ℚ) × TokenBucket :=
  let b := b.refill now
  ((b.tokens, b.last_refill), b)

/-- `SlidingWindowCounter` from `src/core/rate_limiter.py`: a dict from
observation timestamp to count, pruned lazily on access. -/
structure SlidingWindowCounter where
  window_seconds : ℚ
  max_requests : ℕ
  requests : List (ℚ × ℕ)
deriving DecidableEq

/-- Sum of the counts stored in a window's timestamp→count dict. -/
def sumCounts (l : List (ℚ × ℕ)) : ℕ := (l.map Prod.snd).sum

/-- Python `min(d.keys())` over a nonempty dict (with a default for the
empty case, mirroring `min(...) if self.requests else now`). -/
def minKey (l : List (ℚ × ℕ)) (d : ℚ) : ℚ :=
  match l.map Prod.fst with
  | [] => d
  | k :: ks => ks.foldl min k

/-- `requests[now] = requests.get(now, 0) + count` on the dict model. -/
def dictGetAdd (l : List (ℚ × ℕ)) (k : ℚ) (c : ℕ) : List (ℚ × ℕ) :=
  if (l.lookup k).isSome then l.map (fun p => if p.1 = k then (k, p.2 + c) else p)
  else l ++ [(k, c)]

/-- `SlidingWindowCounter.record`: prune entries at or before
`now - window_seconds`, add `count` at key `now`, and return
`(total, reset_at)` together with the updated counter. -/
def SlidingWindowCounter.record (w : SlidingWindowCounter) (count : ℕ) (now : ℚ) :
    (ℕ × ℚ) × SlidingWindowCounter :=
  let window_start := now - w.window_seconds
  let pruned := w.requests.filter (fun p => decide (window_start < p.1))
  let requests := dictGetAdd pruned now count
  let total := sumCounts requests
  let oldest := minKey requests now
  ((total, oldest + w.window_seconds), { w with requests := requests })

/-- `RecipientLimits` from `src/core/rate_limiter.py`: per-recipient hourly
and daily sliding windows, burst bucket and last message time.  The
`__post_init__` defaults are hard-coded in the source: hourly window
`(3600, 5)`, daily window `(86400, 20)`, burst bucket `TokenBucket(3, 0.05)`
(the constructor's `burst_allowance`/`burst_window_seconds` arguments are
never forwarded to it). -/
structure RecipientLimits where
  phone_number : String
  hourly : SlidingWindowCounter
  daily : SlidingWindowCounter
  burst : TokenBucket
  last_message_time : ℚ
deriving DecidableEq

/-- `RecipientLimits(phone_number)` constructed at instant `now` (the burst
bucket's `last_refill` is the construction time). -/
def RecipientLimits.mkDefault (phone : String) (now : ℚ) : RecipientLimits :=
  { phone_number := phone
    hourly := { window_seconds := 3600, max_requests := 5, requests := [] }
    daily := { window_seconds := 86400, max_requests := 20, requests := [] }
    burst := { capacity := 3, refill_rate := 0.05, tokens := 3, last_refill := now }
    last_message_time := 0 }

/-- `RateLimitResult` from `src/core/rate_limiter.py`. -/
structure RateLimitResult where
  allowed : Bool
  remaining : ℤ
  reset_at : ℚ
  retry_after : ℚ
deriving DecidableEq

/-- The mutable state of `RateLimiter`: configuration fields plus the
global token bucket, the per-recipient limits dict and the
last-message-time dict. -/
structure RateLimiter where
  max_per_minute : ℕ
  max_per_recipient_per_hour : ℕ
  max_per_recipient_per_day : ℕ
  min_interval_seconds : ℚ
  global_limiter : TokenBucket
  recipient_limiters : List (String × RecipientLimits)
  last_message_times : List (String × ℚ)
deriving DecidableEq

/-- `RateLimiter.__init__` at construction instant `now`; the global bucket
has capacity `max_per_minute` and refill rate `max_per_minute / 60`.  The
source constructor also accepts `burst_allowance` and
`burst_window_seconds` but never uses them; they are omitted here. -/
def RateLimiter.init (max_per_minute max_hour max_day : ℕ)
    (min_interval : ℚ) (now : ℚ) : RateLimiter :=
  { max_per_minute := max_per_minute
    max_per_recipient_per_hour := max_hour
    max_per_recipient_per_day := max_day
    min_interval_seconds := min_interval
    global_limiter :=
      { capacity := max_per_minute
        refill_rate := (max_per_minute : ℚ) / 60
        tokens := max_per_minute
        last_refill := now }
    recipient_limiters := []
    last_message_times := [] }

/-- `RateLimiter.check`: the five checks in source order (minimum
interval, global bucket `consume(0)`, hourly window `record(0)`, daily
window `record(0)`, burst bucket `consume(0)`), threading every state
update the Python code performs on shared objects. -/
def RateLimiter.check (S : RateLimiter) (phone_number : String) (now : ℚ) :
    RateLimitResult × RateLimiter :=
  let last_time := dictGetD S.last_message_times phone_number 0
  let time_since_last := now - last_time
  if time_since_last < S.min_interval_seconds then
    let retry_after := S.min_interval_seconds - time_since_last
    ({ allowed := false, remaining := 0, reset_at := now + retry_after,
       retry_after := retry_after }, S)
  else
    let gres := S.global_limiter.consume 0 now
    let S1 := { S with global_limiter := gres.2 }
    if gres.1.1 = false then
      ({ allowed := false, remaining := 0, reset_at := now + gres.1.2,
         retry_after := gres.1.2 }, S1)
    else
      let limits := dictGetD S1.recipient_limiters phone_number
        (RecipientLimits.mkDefault phone_number now)
      let hres := limits.hourly.record 0 now
      let limits := { limits with hourly := hres.2 }
      let S2 := { S1 with
        recipient_limiters := dictSet S1.recipient_limiters phone_number limits }
      if S2.max_per_recipient_per_hour ≤ hres.1.1 then
        ({ allowed := false, remaining := 0, reset_at := hres.1.2,
           retry_after := max 0 (hres.1.2 - now) }, S2)
      else
        let dres := limits.daily.record 0 now
        let limits := { limits with daily := dres.2 }
        let S3 := { S2 with
          recipient_limiters := dictSet S2.recipient_limiters phone_number limits }
        if S3.max_per_recipient_per_day ≤ dres.1.1 then
          ({ allowed := false, remaining := 0, reset_at := dres.1.2,
             retry_after := max 0 (dres.1.2 - now) }, S3)
        else
          let bres := limits.burst.consume 0 now
          let limits := { limits with burst := bres.2 }
          let S4 := { S3 with
            recipient_limiters := dictSet S3.recipient_limiters phone_number limits }
          if bres.1.1 = false then
            ({ allowed := false, remaining := 0, reset_at := now + bres.1.2,
               retry_after := bres.1.2 }, S4)
          else
            let gs := S4.global_limiter.get_state now
            let S5 := { S4 with global_limiter := gs.2 }
            let remaining : ℤ :=
              min (min ((S5.max_per_minute : ℤ) - pyInt gs.1.1)
                       ((S5.max_per_recipient_per_hour : ℤ) - (hres.1.1 : ℤ)))
                  ((S5.max_per_recipient_per_day : ℤ) - (dres.1.1 : ℤ))
            ({ allowed := true, remaining := max 0 remaining,
               reset_at := now + 60, retry_after := 0 }, S5)

/-- `RateLimiter.record`: consume one global token, record one request in
the recipient's hourly and daily windows, consume one burst token and
update both last-message-time fields. -/
def RateLimiter.record (S : RateLimiter) (phone_number : String) (now : ℚ) :
    RateLimiter :=
  let gres := S.global_limiter.consume 1 now
  let S1 := { S with global_limiter := gres.2 }
  let limits := dictGetD S1.recipient_limiters phone_number
    (RecipientLimits.mkDefault phone_number now)
  let hres := limits.hourly.record 1 now
  let dres := limits.daily.record 1 now
  let bres := limits.burst.consume 1 now
  let limits := { limits with
    hourly := hres.2, daily := dres.2, burst := bres.2, last_message_time := now }
  { S1 with
    recipient_limiters := dictSet S1.recipient_limiters phone_number limits
    last_message_times := dictSet S1.last_message_times phone_number now }

/-- `RateLimiter.check_and_record`: check, then record iff allowed. -/
def RateLimiter.check_and_record (S : RateLimiter) (phone_number : String)
    (now : ℚ) : RateLimitResult × RateLimiter :=
  let res := S.check phone_number now
  if res.1.allowed then (res.1, res.2.record phone_number now) else res

/-! ## Observable quantities of the rate limiter

`check` mutates internal bookkeeping (bucket refill timestamps, window
pruning, lazily created recipient entries, zero-count window entries).
The quantities below are the externally observable ones: what any
subsequent operation at instant `t` would measure. -/

/-- The token balance a bucket would report if refilled at instant `t`. -/
def TokenBucket.obsTokens (b : TokenBucket) (t : ℚ) : ℚ :=
  min b.capacity (b.tokens + (t - b.last_refill) * b.refill_rate)

/-- The count a sliding window would report at instant `t` (entries
strictly newer than `t - window_seconds`). -/
def SlidingWindowCounter.obsCount (w : SlidingWindowCounter) (t : ℚ) : ℕ :=
  sumCounts (w.requests.filter (fun p => decide (t - w.window_seconds < p.1)))

/-- Observable hourly count for a recipient (0 when untracked, as in
`get_status`). -/
def RateLimiter.obsHourly (S : RateLimiter) (phone : String) (t : ℚ) : ℕ :=
  match S.recipient_limiters.lookup phone with
  | none => 0
  | some l => l.hourly.obsCount t

/-- Observable daily count for a recipient (0 when untracked). -/
def RateLimiter.obsDaily (S : RateLimiter) (phone : String) (t : ℚ) : ℕ :=
  match S.recipient_limiters.lookup phone with
  | none => 0
  | some l => l.daily.obsCount t

/-- Observable burst-bucket balance for a recipient (3, the hard-coded
fresh capacity, when untracked, as in `get_status`). -/
def RateLimiter.obsBurst (S : RateLimiter) (phone : String) (t : ℚ) : ℚ :=
  match S.recipient_limiters.lookup phone with
  | none => 3
  | some l => l.burst.obsTokens t

/-- Observable global-bucket balance. -/
def RateLimiter.obsGlobal (S : RateLimiter) (t : ℚ) : ℚ :=
  S.global_limiter.obsTokens t

/-- All observable state is equal between two limiter states at instant
`t`, and the last-message-time map is identical. -/
def RateLimiter.ObsEq (S S' : RateLimiter) (t : ℚ) : Prop :=
  S'.last_message_times = S.last_message_times ∧
  (∀ q, S'.obsHourly q t = S.obsHourly q t) ∧
  (∀ q, S'.obsDaily q t = S.obsDaily q t) ∧
  (∀ q, S'.obsBurst q t = S.obsBurst q t) ∧
  S'.obsGlobal t = S.obsGlobal t

/-! ## Guardrail system (`src/services/guardrails.py`)

Text is modelled as `List Char`.  The Python `re` library is external to
the repository; each compiled pattern category is modelled as an abstract
`Redactor` (see its doc comment). -/

/-- Python `len(s)` as an integer (for comparisons against `max_length`,
which Python treats as an `int` that may be negative). -/
def pyLen (s : List Char) : ℤ := s.length

/-- Python `s[:n]` including negative-index semantics: a negative `n`
counts from the end, clamping at `0`. -/
def pySliceTo (s : List Char) (n : ℤ) : List Char :=
  if 0 ≤ n then s.take n.toNat else s.take (s.length - (-n).toNat)

/-- Index of the last occurrence of `c`, if any (innermost helper for
Python `str.rfind`). -/
def pyRfindAux (c : Char) : List Char → Option ℕ
  | [] => none
  | a :: rest =>
    match pyRfindAux c rest with
    | some i => some (i + 1)
    | none => if a = c then some 0 else none

/-- Python `s.rfind(c)`: index of the last occurrence, `-1` when absent. -/
def pyRfind (c : Char) (s : List Char) : ℤ :=
  match pyRfindAux c s with
  | none => -1
  | some i => i

/-- `GuardrailSystem._truncate`: cut to `max_length - 3` (a Python slice,
so a negative bound counts from the end), prefer the last space past
`max_length // 2` (Python floor division), and append an ellipsis. -/
def gsTruncate (max_length : ℤ) (text : List Char) : List Char :=
  if pyLen text ≤ max_length then text
  else
    let truncated := pySliceTo text (max_length - 3)
    let last_space := pyRfind ' ' truncated
    let truncated :=
      if max_length.fdiv 2 < last_space then pySliceTo truncated last_space
      else truncated
    truncated ++ ['.', '.', '.']

/-- A guardrail violation record; the source stores a dict whose fields
beyond `type` and `action` are diagnostic only (matched text, lengths)
and are not read by any control flow, so only these two are modelled. -/
structure Violation where
  vtype : String
  action : String
deriving DecidableEq

/-- `GuardrailResult` from `src/services/guardrails.py`. -/
structure GuardrailResult where
  passed : Bool
  original : List Char
  modified : List Char
  violations : List Violation
  actions : List String

/-- `GuardrailResult.safe_response`: `modified` when truthy (nonempty),
else `original`. -/
def GuardrailResult.safe_response (r : GuardrailResult) : List Char :=
  if r.modified.isEmpty then r.original else r.modified

/-- Model of one compiled pattern category of the guardrail system.  The
Python `re` library is external to this repository, so a category's
behaviour is abstract: `search` models "some pattern of the category
matches" (`pattern.search(text)` is not `None` for some pattern) and
`sub` models substituting every occurrence of every pattern of the
category with the category's replacement token.  `sub_ne_nil` records the
one structural fact the source guarantees about `re.sub` here: every
replacement token in the source (`"[REDACTED]"`, `"****"`) is nonempty,
and `re.sub` with a nonempty replacement maps nonempty text to nonempty
text (the output is the non-matched spans interleaved with nonempty
replacement tokens). -/
structure Redactor where
  search : List Char → Bool
  sub : List Char → List Char
  sub_ne_nil : ∀ s, s ≠ [] → sub s ≠ []

/-- A caller-supplied custom pattern: its source string plus its compiled
behaviour (Python keeps `compiled.pattern` equal to the source string). -/
structure CompiledPattern where
  pattern : String
  red : Redactor

/-- `_check_custom_patterns`: first custom pattern that matches. -/
def customSearch (l : List CompiledPattern) (s : List Char) : Bool :=
  l.any (fun c => c.red.search s)

/-- `_redact_custom`: substitute every custom pattern in order. -/
def customSub (l : List CompiledPattern) (s : List Char) : List Char :=
  l.foldl (fun t c => c.red.sub t) s

/-- `GuardrailSystem` configuration and compiled state from
`src/services/guardrails.py`.  The five `DEFAULT_PATTERNS` categories and
the profanity list are `Redactor`s; the optional security manager is the
pair (`detect_pii` nonempty, `redact_pii`) — `redact_pii` substitutes with
`"[REDACTED]"` (`src/core/security.py`), hence is a `Redactor` too. -/
structure GuardrailSystem where
  max_length : ℤ
  block_phone_numbers : Bool
  block_emails : Bool
  block_urls : Bool
  block_credit_cards : Bool
  block_ssn : Bool
  block_profanity : Bool
  phone_number_patterns : Redactor
  email_patterns : Redactor
  url_patterns : Redactor
  credit_card_patterns : Redactor
  ssn_patterns : Redactor
  profanity_patterns : Redactor
  custom_patterns : List CompiledPattern
  security_manager : Option Redactor

/-- Pipeline state inside `validate`: current text, violations, actions. -/
abbrev GuardState := List Char × List Violation × List String

/-- Step 1 of `validate`: length check; `_check_length`'s violation action
is always `truncate`, so the truncation branch is always taken when the
violation exists. -/
def lengthStage (g : GuardrailSystem) (st : GuardState) : GuardState :=
  if g.max_length < pyLen st.1 then
    (gsTruncate g.max_length st.1,
     st.2.1 ++ [⟨"length_exceeded", "truncate"⟩],
     st.2.2 ++ ["truncated"])
  else st

/-- One iteration of step 2 of `validate` (`for content_type, should_block
in content_checks`): when the category is enabled and some of its
patterns matches, record a violation and redact all of them. -/
def contentStep (flag : Bool) (name : String) (red : Redactor)
    (st : GuardState) : GuardState :=
  if flag && red.search st.1 then
    (red.sub st.1, st.2.1 ++ [⟨name, "redact"⟩], st.2.2 ++ ["redacted_" ++ name])
  else st

/-- Step 3 of `validate`: profanity check and masking. -/
def profanityStage (g : GuardrailSystem) (st : GuardState) : GuardState :=
  if g.block_profanity && g.profanity_patterns.search st.1 then
    (g.profanity_patterns.sub st.1,
     st.2.1 ++ [⟨"profanity", "redact"⟩], st.2.2 ++ ["redacted_profanity"])
  else st

/-- Step 4 of `validate`: custom patterns. -/
def customStage (g : GuardrailSystem) (st : GuardState) : GuardState :=
  if customSearch g.custom_patterns st.1 then
    (customSub g.custom_patterns st.1,
     st.2.1 ++ [⟨"custom", "redact"⟩], st.2.2 ++ ["redacted_custom"])
  else st

/-- Step 5 of `validate`: PII check delegated to the security manager. -/
def piiStage (g : GuardrailSystem) (st : GuardState) : GuardState :=
  match g.security_manager with
  | some sm =>
    if sm.search st.1 then
      (sm.sub st.1, st.2.1 ++ [⟨"pii", "redact"⟩], st.2.2 ++ ["redacted_pii"])
    else st
  | none => st

/-- Steps 1–5 of `GuardrailSystem.validate` in source order. -/
def guardStages (g : GuardrailSystem) (response : List Char) : GuardState :=
  piiStage g (customStage g (profanityStage g
    (contentStep g.block_ssn "ssn" g.ssn_patterns
      (contentStep g.block_credit_cards "credit_card" g.credit_card_patterns
        (contentStep g.block_urls "url" g.url_patterns
          (contentStep g.block_emails "email" g.email_patterns
            (contentStep g.block_phone_numbers "phone_number" g.phone_number_patterns
              (lengthStage g (response, [], [])))))))))

/-- `GuardrailSystem.validate`: run the pipeline, compute `passed`
(`len(violations) == 0 or not blocked`), then re-truncate if the
redactions pushed the text back over `max_length`. -/
def GuardrailSystem.validate (g : GuardrailSystem) (response : List Char) :
    GuardrailResult :=
  let st := guardStages g response
  let blocked := st.2.1.any (fun v => v.action == "block")
  let passed := st.2.1.isEmpty || !blocked
  if g.max_length < pyLen st.1 then
    { passed := passed, original := response,
      modified := gsTruncate g.max_length st.1,
      violations := st.2.1, actions := st.2.2 ++ ["final_truncated"] }
  else
    { passed := passed, original := response, modified := st.1,
      violations := st.2.1, actions := st.2.2 }

/-- `GuardrailSystem.add_custom_pattern`: compile (an external `re`
operation, passed as a function; `none` models `re.error`), append on
success, report success as a Bool. -/
def GuardrailSystem.add_custom_pattern (compile : String → Option Redactor)
    (g : GuardrailSystem) (pattern : String) : Bool × GuardrailSystem :=
  match compile pattern with
  | some red =>
    (true, { g with custom_patterns := g.custom_patterns ++ [⟨pattern, red⟩] })
  | none => (false, g)

/-- `FALLBACK_RESPONSES` from `src/services/guardrails.py`. -/
def FALLBACK_RESPONSES : List (List Char) :=
  ["I received your message but cannot provide a specific response right now.".data,
   "Thanks for reaching out! I'll get back to you soon.".data,
   "Message received. I'll respond when available.".data,
   "Thanks for your message! I'm currently unavailable.".data]

/-- Python `random.choice`, with the draw made explicit as an index
reduced modulo the list length. -/
def pyChoice (k : ℕ) (l : List (List Char)) : List Char :=
  l.getD (k % l.length) []

/-- `GuardrailSystem.get_fallback_response` with an explicit draw. -/
def GuardrailSystem.get_fallback_response (k : ℕ) : List Char :=
  pyChoice k FALLBACK_RESPONSES

/-- A redactor whose pattern never matches (used to instantiate concrete
guardrail systems in witnesses). -/
def idRedactor : Redactor :=
  { search := fun _ => false, sub := id, sub_ne_nil := fun _ h => h }

/-- A concrete guardrail system with all content categories disabled, no
custom patterns and no security manager, at a given `max_length`. -/
def sampleGuard (maxL : ℤ) : GuardrailSystem :=
  { max_length := maxL
    block_phone_numbers := false, block_emails := false, block_urls := false
    block_credit_cards := false, block_ssn := false, block_profanity := false
    phone_number_patterns := idRedactor, email_patterns := idRedactor
    url_patterns := idRedactor, credit_card_patterns := idRedactor
    ssn_patterns := idRedactor, profanity_patterns := idRedactor
    custom_patterns := [], security_manager := none }

/-! ## Template renderer (`src/rules/templates.py`)

`Template.render` applies six passes in a fixed order: simple `{name}`
substitution, `{name:default}`, `{name:%fmt}` date formatting,
`{random:a|b|c}`, `{if:...}` conditionals, and built-in variables.  Each
Python `re.sub` is reproduced by a left-to-right scanner specialised to
its pattern (the patterns contain no constructs that make backtracking
observable: a word run cannot contain `:` or `}`, a `[^}]+` run cannot
contain `}`, so each pattern matches at a position in exactly one way).
A scanner recurses structurally on the text; after a successful match it
emits the replacement and carries a skip count for the remaining matched
characters.  `datetime.now()` formatting is an oracle parameter;
`random.choice` draws from an explicit stream of indices. -/

/-- Python `\w` on the ASCII inputs this repository handles. -/
def pyWordChar (c : Char) : Bool := c.isAlphanum || c = '_'

/-- One `re.sub` scan for `\{(\w+)\}` (`_process_simple_vars`): keep the
placeholder when the name is not bound in the context; `skip` counts
already-emitted characters of a match still to be consumed. -/
def subSimpleRun (ctx : List (List Char × List Char)) :
    ℕ → List Char → List Char
  | _, [] => []
  | skip + 1, _ :: rest => subSimpleRun ctx skip rest
  | 0, c :: rest =>
    if c = '{' then
      let w := rest.takeWhile pyWordChar
      let rest' := rest.drop w.length
      if w.isEmpty then '{' :: subSimpleRun ctx 0 rest
      else
        match rest' with
        | '}' :: _ =>
          (match ctx.lookup w with
           | some v => v
           | none => '{' :: (w ++ ['}'])) ++ subSimpleRun ctx (w.length + 1) rest
        | _ => '{' :: subSimpleRun ctx 0 rest
    else c :: subSimpleRun ctx 0 rest

/-- `_process_simple_vars`. -/
def processSimpleVars (ctx : List (List Char × List Char)) (s : List Char) :
    List Char := subSimpleRun ctx 0 s

/-- One `re.sub` scan for `\{(\w+):([^}]+)\}` (`_process_defaults`). -/
def subDefaultsRun (ctx : List (List Char × List Char)) :
    ℕ → List Char → List Char
  | _, [] => []
  | skip + 1, _ :: rest => subDefaultsRun ctx skip rest
  | 0, c :: rest =>
    if c = '{' then
      let w := rest.takeWhile pyWordChar
      let rest' := rest.drop w.length
      if w.isEmpty then '{' :: subDefaultsRun ctx 0 rest
      else
        match rest' with
        | ':' :: rest2 =>
          let d := rest2.takeWhile (fun ch => ch != '}')
          let rest3 := rest2.drop d.length
          if d.isEmpty then '{' :: subDefaultsRun ctx 0 rest
          else
            match rest3 with
            | '}' :: _ =>
              (match ctx.lookup w with
               | some v => v
               | none => d) ++ subDefaultsRun ctx (w.length + 1 + d.length + 1) rest
            | _ => '{' :: subDefaultsRun ctx 0 rest
        | _ => '{' :: subDefaultsRun ctx 0 rest
    else c :: subDefaultsRun ctx 0 rest

/-- `_process_defaults`. -/
def processDefaults (ctx : List (List Char × List Char)) (s : List Char) :
    List Char := subDefaultsRun ctx 0 s

/-- One `re.sub` scan for `\{(date|time|\w+):(%[^}]+)\}`
(`_process_dates`).  `strf fmt` models `datetime.now().strftime(fmt)`;
`ctxFmt var fmt` models formatting a context value that is a `datetime`
or an ISO string (`none` when the variable is absent, not a datetime, or
`fromisoformat` raises, in which case the placeholder stays). -/
def subDatesRun (strf : List Char → List Char)
    (ctxFmt : List Char → List Char → Option (List Char)) :
    ℕ → List Char → List Char
  | _, [] => []
  | skip + 1, _ :: rest => subDatesRun strf ctxFmt skip rest
  | 0, c :: rest =>
    if c = '{' then
      let w := rest.takeWhile pyWordChar
      let rest' := rest.drop w.length
      if w.isEmpty then '{' :: subDatesRun strf ctxFmt 0 rest
      else
        match rest' with
        | ':' :: '%' :: rest2 =>
          let f := rest2.takeWhile (fun ch => ch != '}')
          let rest3 := rest2.drop f.length
          if f.isEmpty then '{' :: subDatesRun strf ctxFmt 0 rest
          else
            match rest3 with
            | '}' :: _ =>
              (if w = "date".data ∨ w = "time".data then strf ('%' :: f)
               else match ctxFmt w ('%' :: f) with
                 | some v => v
                 | none => '{' :: (w ++ [':', '%'] ++ f ++ ['}']))
                ++ subDatesRun strf ctxFmt (w.length + 2 + f.length + 1) rest
            | _ => '{' :: subDatesRun strf ctxFmt 0 rest
        | _ => '{' :: subDatesRun strf ctxFmt 0 rest
    else c :: subDatesRun strf ctxFmt 0 rest

/-- `_process_dates`. -/
def processDates (strf : List Char → List Char)
    (ctxFmt : List Char → List Char → Option (List Char)) (s : List Char) :
    List Char := subDatesRun strf ctxFmt 0 s

/-- Python `s.split("|")` (separator split, empties preserved). -/
def splitOnPipe : List Char → List (List Char)
  | [] => [[]]
  | c :: rest =>
    if c = '|' then [] :: splitOnPipe rest
    else
      match splitOnPipe rest with
      | seg :: segs => (c :: seg) :: segs
      | [] => [[c]]

/-- One `re.sub` scan for `\{random:([^}]+)\}` (`_process_random`); the
`i`-th replacement draws `random.choice` with index `rng i`. -/
def subRandomRun (rng : ℕ → ℕ) :
    ℕ → ℕ → List Char → List Char
  | _, _, [] => []
  | i, skip + 1, _ :: rest => subRandomRun rng i skip rest
  | i, 0, c :: rest =>
    if c = '{' then
      if "random:".data.isPrefixOf rest then
        let rest2 := rest.drop 7
        let opts := rest2.takeWhile (fun ch => ch != '}')
        let rest3 := rest2.drop opts.length
        if opts.isEmpty then '{' :: subRandomRun rng i 0 rest
        else
          match rest3 with
          | '}' :: _ =>
            pyChoice (rng i) (splitOnPipe opts)
              ++ subRandomRun rng (i + 1) (7 + opts.length + 1) rest
          | _ => '{' :: subRandomRun rng i 0 rest
      else '{' :: subRandomRun rng i 0 rest
    else c :: subRandomRun rng i 0 rest

/-- `_process_random`. -/
def processRandom (rng : ℕ → ℕ) (s : List Char) : List Char :=
  subRandomRun rng 0 0 s

/-- Truthiness of a context variable (`var_name in context and
context[var_name]`); string values are truthy iff nonempty. -/
def ctxTruthy (ctx : List (List Char × List Char)) (w : List Char) : Bool :=
  match ctx.lookup w with
  | some v => !v.isEmpty
  | none => false

/-- One `re.sub` scan for
`\{if:(\w+)\}([^{]*)\{else\}([^{]*)\{endif\}` (first conditional pass). -/
def subIfElseRun (ctx : List (List Char × List Char)) :
    ℕ → List Char → List Char
  | _, [] => []
  | skip + 1, _ :: rest => subIfElseRun ctx skip rest
  | 0, c :: rest =>
    if c = '{' then
      if "if:".data.isPrefixOf rest then
        let rest1 := rest.drop 3
        let w := rest1.takeWhile pyWordChar
        let rest2 := rest1.drop w.length
        if w.isEmpty then '{' :: subIfElseRun ctx 0 rest
        else
          match rest2 with
          | '}' :: rest3 =>
            let yes := rest3.takeWhile (fun ch => ch != '{')
            let rest4 := rest3.drop yes.length
            if "{else}".data.isPrefixOf rest4 then
              let rest5 := rest4.drop 6
              let no := rest5.takeWhile (fun ch => ch != '{')
              let rest6 := rest5.drop no.length
              if "{endif}".data.isPrefixOf rest6 then
                (if ctxTruthy ctx w then yes else no)
                  ++ subIfElseRun ctx
                    (3 + w.length + 1 + yes.length + 6 + no.length + 7) rest
              else '{' :: subIfElseRun ctx 0 rest
            else '{' :: subIfElseRun ctx 0 rest
          | _ => '{' :: subIfElseRun ctx 0 rest
      else '{' :: subIfElseRun ctx 0 rest
    else c :: subIfElseRun ctx 0 rest

/-- One `re.sub` scan for `\{if:(\w+)\}([^{]*)\{endif\}` (second
conditional pass). -/
def subIfRun (ctx : List (List Char × List Char)) :
    ℕ → List Char → List Char
  | _, [] => []
  | skip + 1, _ :: rest => subIfRun ctx skip rest
  | 0, c :: rest =>
    if c = '{' then
      if "if:".data.isPrefixOf rest then
        let rest1 := rest.drop 3
        let w := rest1.takeWhile pyWordChar
        let rest2 := rest1.drop w.length
        if w.isEmpty then '{' :: subIfRun ctx 0 rest
        else
          match rest2 with
          | '}' :: rest3 =>
            let content := rest3.takeWhile (fun ch => ch != '{')
            let rest4 := rest3.drop content.length
            if "{endif}".data.isPrefixOf rest4 then
              (if ctxTruthy ctx w then content else [])
                ++ subIfRun ctx (3 + w.length + 1 + content.length + 7) rest
            else '{' :: subIfRun ctx 0 rest
          | _ => '{' :: subIfRun ctx 0 rest
      else '{' :: subIfRun ctx 0 rest
    else c :: subIfRun ctx 0 rest

/-- `_process_conditionals`: if-else pass, then if-only pass. -/
def processConditionals (ctx : List (List Char × List Char)) (s : List Char) :
    List Char :=
  subIfRun ctx 0 (subIfElseRun ctx 0 s)

/-- Python `str.replace` (all non-overlapping occurrences, left to
right); `pat` is nonempty for every use below. -/
def listReplace (pat rep : List Char) : ℕ → List Char → List Char
  | _, [] => []
  | skip + 1, _ :: rest => listReplace pat rep skip rest
  | 0, c :: rest =>
    if pat.isPrefixOf (c :: rest) then
      rep ++ listReplace pat rep (pat.length - 1) rest
    else c :: listReplace pat rep 0 rest

/-- The built-in variable names of `_process_builtins`, in source order. -/
def builtinNames : List String :=
  ["date", "time", "datetime", "year", "month", "day", "weekday", "hour", "minute"]

/-- `_process_builtins`: replace `{name}` by the current value of the
built-in (`bv name`, an oracle for the `datetime.now()`-derived strings). -/
def processBuiltins (bv : String → List Char) (s : List Char) : List Char :=
  builtinNames.foldl
    (fun t name => listReplace ('{' :: (name.data ++ ['}'])) (bv name) 0 t) s

/-- `Template.render`: the six passes in source order. -/
def Template.render (strf : List Char → List Char)
    (ctxFmt : List Char → List Char → Option (List Char))
    (rng : ℕ → ℕ) (bv : String → List Char)
    (content : List Char) (ctx : List (List Char × List Char)) : List Char :=
  processBuiltins bv
    (processConditionals ctx
      (processRandom rng
        (processDates strf ctxFmt
          (processDefaults ctx
            (processSimpleVars ctx content)))))


/-! ## Rules engine (`src/rules/engine.py`)

Regular-expression rules (`MatchType.REGEX`) delegate to an oracle
`regexSearch pattern message`, modelling `re.compile(pattern,
re.IGNORECASE).search(message)` and returning the named-group dict on a
match; `none` covers both "no match" and `re.error` (which the source
swallows with `pass`).  `datetime.now()` is split into an explicit
`PyTime` (for time-of-day conditions), the `%A` weekday string, and the
`%Y-%m-%d` / `%H:%M` strings used by response substitution. -/

/-- `MatchType` from `src/rules/engine.py`. -/
inductive MatchType where
  | exact
  | contains
  | startswith
  | endswith
  | regex
  | keywords
  | all_keywords
deriving DecidableEq

/-- The recognised keys of a rule's `conditions` dict. -/
structure RuleConditions where
  time_start : Option String
  time_end : Option String
  days : Option (List String)
  allowed_senders : Option (List String)
deriving DecidableEq

/-- Python truthiness of the `conditions` dict (`if not self.conditions`). -/
def RuleConditions.isEmpty (c : RuleConditions) : Bool :=
  c.time_start.isNone && c.time_end.isNone && c.days.isNone &&
    c.allowed_senders.isNone

/-- The empty `conditions` dict. -/
def RuleConditions.none : RuleConditions := ⟨Option.none, Option.none, Option.none, Option.none⟩

/-- A wall-clock time of day (`datetime.time`, to minute precision — the
source only ever constructs `dt_time(hour, minute)`). -/
structure PyTime where
  hour : ℕ
  minute : ℕ
deriving DecidableEq

/-- `<` on `datetime.time` values. -/
def ltTime (a b : PyTime) : Bool :=
  a.hour < b.hour || (a.hour = b.hour && a.minute < b.minute)

/-- `Rule._parse_time`: split on `:`, parse two ints, `None` on
`ValueError`/`IndexError` (including the range errors `dt_time` raises). -/
def parse_time (s : String) : Option PyTime :=
  match s.splitOn ":" with
  | p0 :: p1 :: _ =>
    match p0.toNat?, p1.toNat? with
    | some h, some m => if h < 24 ∧ m < 60 then some ⟨h, m⟩ else Option.none
    | _, _ => Option.none
  | _ => Option.none

/-- `Rule` from `src/rules/engine.py`. -/
structure Rule where
  name : String
  patterns : List (List Char)
  match_type : MatchType
  responses : List (List Char)
  priority : ℤ
  enabled : Bool
  conditions : RuleConditions
  custom_matcher : Option (List Char → Bool)

/-- `RuleMatch` from `src/rules/engine.py`. -/
structure RuleMatch where
  rule : Rule
  message : List Char
  groups : List (List Char × List Char)
  vars : List (List Char × List Char)
  confidence : ℚ

/-- Python `str.lower()` (per-character, adequate for the ASCII rule
patterns this repository ships). -/
def lowerChars (s : List Char) : List Char := s.map Char.toLower

/-- Python `p in m` on strings: substring containment (`p` occurs as a
contiguous run of `m`; the empty string is contained in everything). -/
def containsSub (p : List Char) : List Char → Bool
  | [] => p.isEmpty
  | c :: rest => p.isPrefixOf (c :: rest) || containsSub p rest

/-- Worker for Python `str.split()` (whitespace split, empties dropped);
`acc` holds the current word reversed. -/
def wsSplitRun : List Char → List Char → List (List Char)
  | acc, [] => if acc.isEmpty then [] else [acc.reverse]
  | acc, c :: rest =>
    if c.isWhitespace then
      if acc.isEmpty then wsSplitRun [] rest
      else acc.reverse :: wsSplitRun [] rest
    else wsSplitRun (c :: acc) rest

/-- Python `s.split()`. -/
def pySplitWS (s : List Char) : List (List Char) := wsSplitRun [] s

/-- `Rule._match_pattern`: one pattern against the message, per the
rule's match type (case-insensitive; `regex` searches the raw message
through the oracle and takes its named groups; the source lowercases the
split keywords, equivalent to splitting the lowercased pattern). -/
def Rule.match_pattern
    (regexSearch : List Char → List Char → Option (List (List Char × List Char)))
    (r : Rule) (pattern : List Char) (message : List Char) : Option RuleMatch :=
  let message_lower := lowerChars message
  let pattern_lower := lowerChars pattern
  match r.match_type with
  | .exact =>
    if message_lower = pattern_lower then
      some { rule := r, message := message, groups := [], vars := [], confidence := 1 } else Option.none
  | .contains =>
    if containsSub pattern_lower message_lower then
      some { rule := r, message := message, groups := [], vars := [], confidence := 1 } else Option.none
  | .startswith =>
    if pattern_lower.isPrefixOf message_lower then
      some { rule := r, message := message, groups := [], vars := [], confidence := 1 } else Option.none
  | .endswith =>
    if pattern_lower.isSuffixOf message_lower then
      some { rule := r, message := message, groups := [], vars := [], confidence := 1 } else Option.none
  | .regex =>
    match regexSearch pattern message with
    | some groups => some { rule := r, message := message, groups := groups, vars := [], confidence := 1 }
    | Option.none => Option.none
  | .keywords =>
    if (pySplitWS pattern_lower).any (fun kw => containsSub kw message_lower) then
      some { rule := r, message := message, groups := [], vars := [], confidence := 1 } else Option.none
  | .all_keywords =>
    if (pySplitWS pattern_lower).all (fun kw => containsSub kw message_lower) then
      some { rule := r, message := message, groups := [], vars := [], confidence := 1 } else Option.none

/-- `Rule._check_conditions` at wall-clock `now`/`today` (`today` is the
`%A` weekday string). -/
def Rule.check_conditions (r : Rule) (now : PyTime) (today : String)
    (context : Option (List (String × String))) : Bool :=
  if r.conditions.isEmpty then true
  else
    let startOk := match r.conditions.time_start with
      | Option.none => true
      | some s => match parse_time s with
        | Option.none => true
        | some st => !(ltTime now st)
    let endOk := match r.conditions.time_end with
      | Option.none => true
      | some s => match parse_time s with
        | Option.none => true
        | some en => !(ltTime en now)
    let daysOk := match r.conditions.days with
      | Option.none => true
      | some ds => (ds.map String.toLower).contains today.toLower
    let sendersOk := match context, r.conditions.allowed_senders with
      | some c, some senders =>
        if c.isEmpty then true
        else senders.contains (dictGetD c "sender" "")
      | _, _ => true
    startOk && endOk && daysOk && sendersOk

/-- `Rule.matches`: enabled check, conditions check, then each pattern in
list order; finally the optional custom matcher. -/
def Rule.matches
    (regexSearch : List Char → List Char → Option (List (List Char × List Char)))
    (now : PyTime) (today : String) (r : Rule) (message : List Char)
    (context : Option (List (String × String))) : Option RuleMatch :=
  if r.enabled = false then Option.none
  else if r.check_conditions now today context = false then Option.none
  else
    match r.patterns.findSome? (fun p => r.match_pattern regexSearch p message) with
    | some m => some m
    | Option.none =>
      match r.custom_matcher with
      | some f => if f message then some { rule := r, message := message, groups := [], vars := [], confidence := 1 } else Option.none
      | Option.none => Option.none

/-- `Rule._substitute_variables`: named capture groups, then `{date}`,
`{time}`, `{message}` (each a Python `str.replace`). -/
def Rule.substitute_variables (template : List Char) (m : RuleMatch)
    (now_date now_time : List Char) : List Char :=
  let result := m.groups.foldl
    (fun t nv => listReplace ('{' :: (nv.1 ++ ['}'])) nv.2 0 t) template
  let result := listReplace "{date}".data now_date 0 result
  let result := listReplace "{time}".data now_time 0 result
  listReplace "{message}".data m.message 0 result

/-- `Rule.generate_response`: empty string when the rule has no
responses, else a uniform random choice followed by substitution. -/
def Rule.generate_response (rngR : ℕ) (now_date now_time : List Char)
    (r : Rule) (m : RuleMatch) : List Char :=
  if r.responses.isEmpty then []
  else Rule.substitute_variables (pyChoice rngR r.responses) m now_date now_time

/-- `RulesEngine` state: the priority-sorted rule list. -/
structure RulesEngine where
  rules : List Rule

/-- A `RulesEngine` constructed with no configuration directory. -/
def RulesEngine.init : RulesEngine := ⟨[]⟩

/-- Stable descending insertion: the new rule goes after existing rules
of equal priority, matching Python's stable `list.sort(reverse=True)`. -/
def insertDesc (r : Rule) : List Rule → List Rule
  | [] => [r]
  | x :: xs => if x.priority < r.priority then r :: x :: xs else x :: insertDesc r xs

/-- Stable sort by descending priority (`rules.sort(key=priority,
reverse=True)`): all stable sorts agree, so left-to-right insertion is
an exact model. -/
def sortRulesDesc (l : List Rule) : List Rule :=
  l.foldl (fun acc r => insertDesc r acc) []

/-- `RulesEngine.add_rule`: append, then re-sort descending by priority. -/
def RulesEngine.add_rule (e : RulesEngine) (r : Rule) : RulesEngine :=
  ⟨sortRulesDesc (e.rules ++ [r])⟩

/-- `RulesEngine.match` (named `matchMessage` here because `match` is a
Lean keyword): first rule in priority order that matches. -/
def RulesEngine.matchMessage
    (regexSearch : List Char → List Char → Option (List (List Char × List Char)))
    (now : PyTime) (today : String) (e : RulesEngine) (message : List Char)
    (context : Option (List (String × String))) : Option RuleMatch :=
  e.rules.findSome? (fun r => r.matches regexSearch now today message context)

/-- `RulesEngine.match_all`: every matching rule, in priority order. -/
def RulesEngine.match_all
    (regexSearch : List Char → List Char → Option (List (List Char × List Char)))
    (now : PyTime) (today : String) (e : RulesEngine) (message : List Char)
    (context : Option (List (String × String))) : List RuleMatch :=
  e.rules.filterMap (fun r => r.matches regexSearch now today message context)

/-! ## Response orchestrator (`src/services/ai_responder.py`)

The provider call `self.llm.chat(...)` is external I/O: its outcome for
the one message under consideration is an explicit
`Except String LLMResponse` argument (`Except.error` models a raised
`LLMError`).  Database logging calls are external write-only effects and
do not influence the result.  Latency fields are wall-clock derived and
modelled as 0. -/

/-- `LLMResponse` fields the orchestrator reads (`src/llm/base.py`). -/
structure LLMResponse where
  content : List Char
  model : String
  tokens_used : ℕ
  latency_ms : ℕ
  finish_reason : String
  is_complete : Bool

/-- `ResponderResult` from `src/services/ai_responder.py`. -/
structure ResponderResult where
  response : List Char
  source : String
  model : String
  tokens_used : ℕ
  latency_ms : ℕ
  guardrail_result : Option GuardrailResult
  metadata : List (String × String)

/-- The orchestrator's configuration and collaborators: AI-mode flag
(`config.sms.ai_mode_enabled`), whether an LLM provider was initialised
(`self.llm is not None`), the fallback flag (`config.llm.fallback_to_rules`),
the provider name, the guardrail system and the optional rules engine. -/
structure AIResponder where
  ai_mode_enabled : Bool
  llm_configured : Bool
  fallback_to_rules : Bool
  provider : String
  guardrails : GuardrailSystem
  rules_engine : Option RulesEngine

/-- `AIResponder._generate_ai_response`: on provider success, validate
with guardrails and build the `source="ai"` result; on `LLMError`, return
`None` when `fallback_to_rules` is set, else re-raise. -/
def AIResponder.generate_ai_response (A : AIResponder)
    (chat : Except String LLMResponse) :
    Except String (Option ResponderResult) :=
  match chat with
  | .ok resp =>
    let gr := A.guardrails.validate resp.content
    .ok (some
      { response := gr.safe_response, source := "ai", model := resp.model,
        tokens_used := resp.tokens_used, latency_ms := resp.latency_ms,
        guardrail_result := some gr,
        metadata := [("provider", A.provider), ("finish_reason", resp.finish_reason)] })
  | .error e =>
    if A.fallback_to_rules then .ok Option.none
    else .error e

/-- `AIResponder.respond`: try AI (the surrounding
`try/except Exception` absorbs every error the AI step raises, including
the `LLMError` re-raised when `fallback_to_rules` is off), then the rules
engine, then the canned fallback. -/
def AIResponder.respond (A : AIResponder)
    (chat : Except String LLMResponse)
    (regexSearch : List Char → List Char → Option (List (List Char × List Char)))
    (now : PyTime) (today : String) (now_date now_time : List Char)
    (rngRule rngFallback : ℕ)
    (incoming : List Char) (phone : String) : ResponderResult :=
  let context := [("sender", phone)]
  let aiResult : Option ResponderResult :=
    if A.ai_mode_enabled && A.llm_configured then
      match A.generate_ai_response chat with
      | .ok r => r
      | .error _ => Option.none
    else Option.none
  match aiResult with
  | some r => r
  | Option.none =>
    match A.rules_engine with
    | some engine =>
      match engine.matchMessage regexSearch now today incoming (some context) with
      | some m =>
        let response := m.rule.generate_response rngRule now_date now_time m
        let gr := A.guardrails.validate response
        { response := gr.safe_response, source := "rules", model := "",
          tokens_used := 0, latency_ms := 0, guardrail_result := some gr,
          metadata := [("rule", m.rule.name)] }
      | Option.none =>
        { response := GuardrailSystem.get_fallback_response rngFallback,
          source := "fallback", model := "", tokens_used := 0, latency_ms := 0,
          guardrail_result := Option.none, metadata := [] }
    | Option.none =>
      { response := GuardrailSystem.get_fallback_response rngFallback,
        source := "fallback", model := "", tokens_used := 0, latency_ms := 0,
        guardrail_result := Option.none, metadata := [] }

/-- A concrete condition-free `contains` rule at priority 90 (for
witnesses). -/
def ruleHi90 : Rule :=
  { name := "hi90", patterns := ["hello".data], match_type := .contains
    responses := ["Hello there!".data], priority := 90, enabled := true
    conditions := RuleConditions.none, custom_matcher := Option.none }

/-- The same rule at priority 10 (for witnesses). -/
def ruleHi10 : Rule :=
  { name := "hi10", patterns := ["hello".data], match_type := .contains
    responses := ["Low priority hello".data], priority := 10, enabled := true
    conditions := RuleConditions.none, custom_matcher := Option.none }

/-- A responder with AI enabled, a provider configured and
`fallback_to_rules` disabled, and no rules engine (for the C3 failing
input). -/
def sampleResponderC3 : AIResponder :=
  { ai_mode_enabled := true, llm_configured := true, fallback_to_rules := false
    provider := "groq", guardrails := sampleGuard 300, rules_engine := Option.none }

/-- A responder with AI enabled, a provider configured,
`fallback_to_rules` enabled and a one-rule engine (for the C8 witness). -/
def sampleResponderC8 : AIResponder :=
  { ai_mode_enabled := true, llm_configured := true, fallback_to_rules := true
    provider := "groq", guardrails := sampleGuard 300
    rules_engine := some (RulesEngine.init.add_rule ruleHi90) }

theorem RateLimiter.ObsEq.refl (S : RateLimiter) (t : ℚ) : RateLimiter.ObsEq S S t :=
  ⟨rfl, fun _ => rfl, fun _ => rfl, fun _ => rfl, rfl⟩

/-- Refilling a bucket does not change its observable balance at the
refill instant. -/
theorem TokenBucket.obsTokens_refill (b : TokenBucket) (now : ℚ) :
    (b.refill now).obsTokens now = b.obsTokens now := by
  simp [TokenBucket.refill, TokenBucket.obsTokens, ← min_assoc]

/-- `consume 0` does not change the observable balance at the call
instant (the refill it performs is observationally silent). -/
theorem TokenBucket.obsTokens_consume_zero (b : TokenBucket) (now : ℚ) :
    ((b.consume 0 now).2).obsTokens now = b.obsTokens now := by
  simp only [TokenBucket.consume]
  split
  · simp [TokenBucket.obsTokens, TokenBucket.refill, ← min_assoc]
  · exact TokenBucket.obsTokens_refill b now

/-- `get_state` does not change the observable balance at the call
instant. -/
theorem TokenBucket.obsTokens_get_state (b : TokenBucket) (now : ℚ) :
    ((b.get_state now).2).obsTokens now = b.obsTokens now :=
  TokenBucket.obsTokens_refill b now

theorem sumCounts_append (l l' : List (ℚ × ℕ)) :
    sumCounts (l ++ l') = sumCounts l + sumCounts l' := by
  simp [sumCounts]

theorem listMapIdOn {α : Type} (l : List α) (f : α → α)
    (h : ∀ a ∈ l, f a = a) : l.map f = l := by
  induction l with
  | nil => rfl
  | cons a l ih =>
    simp only [List.map_cons, h a (List.mem_cons_self a l)]
    exact congrArg _ (ih fun b hb => h b (List.mem_cons_of_mem a hb))

/-- Recording a zero count does not change the observable window count at
the recording instant: pruning removes only entries that the observation
filter would drop anyway, and the inserted entry has count 0. -/
theorem SlidingWindowCounter.obsCount_record_zero (w : SlidingWindowCounter) (now : ℚ) :
    ((w.record 0 now).2).obsCount now = w.obsCount now := by
  unfold SlidingWindowCounter.record SlidingWindowCounter.obsCount
  simp only
  set p : ℚ × ℕ → Bool := fun q => decide (now - w.window_seconds < q.1) with hp
  have hidem : (w.requests.filter p).filter p = w.requests.filter p :=
    List.filter_eq_self.mpr fun a ha => (List.mem_filter.mp ha).2
  unfold dictGetAdd
  split
  · have hmap : (w.requests.filter p).map
        (fun q => if q.1 = now then (now, q.2 + 0) else q) = w.requests.filter p := by
      refine listMapIdOn _ _ fun a _ => ?_
      obtain ⟨a1, a2⟩ := a
      by_cases h : a1 = now
      · subst h; simp
      · simp [h]
    rw [hmap, hidem]
  · rw [List.filter_append, sumCounts_append, hidem]
    have : sumCounts (List.filter p [(now, 0)]) = 0 := by
      by_cases h : p (now, 0) = true
      · simp [List.filter, h, sumCounts]
      · simp only [Bool.not_eq_true] at h
        simp [List.filter, h, sumCounts]
    rw [this, Nat.add_zero]

theorem lookup_map_setKey_ne {β : Type} (l : List (String × β)) (k q : String)
    (v : β) (hq : q ≠ k) :
    (l.map (fun p => if p.1 = k then (k, v) else p)).lookup q = l.lookup q := by
  induction l with
  | nil => rfl
  | cons p l ih =>
    obtain ⟨a, b⟩ := p
    by_cases ha : a = k
    · subst ha
      have : (q == a) = false := by simp [hq]
      simp [List.lookup_cons, this, ih]
    · simp [List.lookup_cons, ha]
      cases hqa : (q == a) <;> simp [ih]

theorem lookup_append_of_none {β : Type} (l l' : List (String × β)) (q : String)
    (h : l.lookup q = none) : (l ++ l').lookup q = l'.lookup q := by
  induction l with
  | nil => rfl
  | cons p l ih =>
    obtain ⟨a, b⟩ := p
    rw [List.lookup_cons] at h
    rw [List.cons_append, List.lookup_cons]
    cases hqa : (q == a)
    · simp only [hqa] at h ⊢
      exact ih h
    · simp [hqa] at h

theorem lookup_append_of_some {β : Type} (l l' : List (String × β)) (q : String)
    (w : β) (h : l.lookup q = some w) : (l ++ l').lookup q = some w := by
  induction l with
  | nil => simp at h
  | cons p l ih =>
    obtain ⟨a, b⟩ := p
    rw [List.lookup_cons] at h
    rw [List.cons_append, List.lookup_cons]
    cases hqa : (q == a)
    · simp only [hqa] at h ⊢
      exact ih h
    · simp only [hqa] at h ⊢
      exact h

theorem lookup_dictSet_self {β : Type} (l : List (String × β)) (k : String) (v : β) :
    (dictSet l k v).lookup k = some v := by
  unfold dictSet
  split
  case isTrue h =>
    induction l with
    | nil => simp at h
    | cons p l ih =>
      obtain ⟨a, b⟩ := p
      by_cases hk : k = a
      · subst hk; simp [List.lookup_cons]
      · have ha : ¬(a = k) := fun hh => hk hh.symm
        have hbeq : (k == a) = false := by simp [hk]
        simp only [List.map_cons, if_neg ha, List.lookup_cons, hbeq]
        apply ih
        simpa [List.lookup_cons, hbeq] using h
  case isFalse h =>
    have hn : l.lookup k = none := by
      cases hl : l.lookup k
      · rfl
      · rw [hl] at h; simp at h
    rw [lookup_append_of_none _ _ _ hn]
    simp [List.lookup_cons]

theorem lookup_dictSet_ne {β : Type} (l : List (String × β)) (k q : String)
    (v : β) (hq : q ≠ k) :
    (dictSet l k v).lookup q = l.lookup q := by
  unfold dictSet
  split
  · exact lookup_map_setKey_ne l k q v hq
  · cases hl : l.lookup q
    · rw [lookup_append_of_none _ _ _ hl]
      have : (q == k) = false := by simp [hq]
      simp [List.lookup_cons, this]
    · exact lookup_append_of_some _ _ _ _ hl

theorem ObsEq_setGlobal (S : RateLimiter) (b' : TokenBucket) (now : ℚ)
    (h : b'.obsTokens now = S.global_limiter.obsTokens now) :
    RateLimiter.ObsEq S { S with global_limiter := b' } now :=
  ⟨rfl, fun _ => rfl, fun _ => rfl, fun _ => rfl, h⟩

theorem ObsEq_setRecipient (S : RateLimiter) (phone : String)
    (limits' : RecipientLimits) (now : ℚ)
    (hh : limits'.hourly.obsCount now = S.obsHourly phone now)
    (hd : limits'.daily.obsCount now = S.obsDaily phone now)
    (hb : limits'.burst.obsTokens now = S.obsBurst phone now) :
    RateLimiter.ObsEq S
      { S with recipient_limiters := dictSet S.recipient_limiters phone limits' } now := by
  refine ⟨rfl, fun q => ?_, fun q => ?_, fun q => ?_, rfl⟩
  · by_cases hq : q = phone
    · subst hq
      simp only [RateLimiter.obsHourly, lookup_dictSet_self]
      exact hh
    · simp only [RateLimiter.obsHourly, lookup_dictSet_ne _ _ _ _ hq]
  · by_cases hq : q = phone
    · subst hq
      simp only [RateLimiter.obsDaily, lookup_dictSet_self]
      exact hd
    · simp only [RateLimiter.obsDaily, lookup_dictSet_ne _ _ _ _ hq]
  · by_cases hq : q = phone
    · subst hq
      simp only [RateLimiter.obsBurst, lookup_dictSet_self]
      exact hb
    · simp only [RateLimiter.obsBurst, lookup_dictSet_ne _ _ _ _ hq]

theorem RateLimiter.ObsEq.trans {S1 S2 S3 : RateLimiter} {t : ℚ}
    (h12 : RateLimiter.ObsEq S1 S2 t) (h23 : RateLimiter.ObsEq S2 S3 t) :
    RateLimiter.ObsEq S1 S3 t :=
  ⟨h23.1.trans h12.1,
   fun q => (h23.2.1 q).trans (h12.2.1 q),
   fun q => (h23.2.2.1 q).trans (h12.2.2.1 q),
   fun q => (h23.2.2.2.1 q).trans (h12.2.2.2.1 q),
   h23.2.2.2.2.trans h12.2.2.2.2⟩

theorem mkDefault_hourly_obs (phone : String) (now t : ℚ) :
    ((RecipientLimits.mkDefault phone now).hourly).obsCount t = 0 := rfl

theorem mkDefault_daily_obs (phone : String) (now t : ℚ) :
    ((RecipientLimits.mkDefault phone now).daily).obsCount t = 0 := rfl

theorem mkDefault_burst_obs (phone : String) (now : ℚ) :
    ((RecipientLimits.mkDefault phone now).burst).obsTokens now = 3 := by
  simp [RecipientLimits.mkDefault, TokenBucket.obsTokens]

theorem obsHourly_record_zero (S : RateLimiter) (phone : String) (now : ℚ) :
    (((dictGetD S.recipient_limiters phone
        (RecipientLimits.mkDefault phone now)).hourly.record 0 now).2).obsCount now
      = S.obsHourly phone now := by
  unfold dictGetD RateLimiter.obsHourly
  cases h : S.recipient_limiters.lookup phone
  · simp only [h, Option.getD_none]
    rw [SlidingWindowCounter.obsCount_record_zero]
    rfl
  · simp only [h, Option.getD_some]
    exact SlidingWindowCounter.obsCount_record_zero _ _

theorem obsDaily_record_zero (S : RateLimiter) (phone : String) (now : ℚ) :
    (((dictGetD S.recipient_limiters phone
        (RecipientLimits.mkDefault phone now)).daily.record 0 now).2).obsCount now
      = S.obsDaily phone now := by
  unfold dictGetD RateLimiter.obsDaily
  cases h : S.recipient_limiters.lookup phone
  · simp only [h, Option.getD_none]
    rw [SlidingWindowCounter.obsCount_record_zero]
    rfl
  · simp only [h, Option.getD_some]
    exact SlidingWindowCounter.obsCount_record_zero _ _

theorem obsDaily_getD (S : RateLimiter) (phone : String) (now : ℚ) :
    ((dictGetD S.recipient_limiters phone
        (RecipientLimits.mkDefault phone now)).daily).obsCount now
      = S.obsDaily phone now := by
  unfold dictGetD RateLimiter.obsDaily
  cases h : S.recipient_limiters.lookup phone
  · simp only [h, Option.getD_none]; rfl
  · simp only [h, Option.getD_some]

theorem obsBurst_getD (S : RateLimiter) (phone : String) (now : ℚ) :
    ((dictGetD S.recipient_limiters phone
        (RecipientLimits.mkDefault phone now)).burst).obsTokens now
      = S.obsBurst phone now := by
  unfold dictGetD RateLimiter.obsBurst
  cases h : S.recipient_limiters.lookup phone
  · simp only [h, Option.getD_none]
    exact mkDefault_burst_obs phone now
  · simp only [h, Option.getD_some]

theorem obsBurst_consume_zero (S : RateLimiter) (phone : String) (now : ℚ) :
    (((dictGetD S.recipient_limiters phone
        (RecipientLimits.mkDefault phone now)).burst.consume 0 now).2).obsTokens now
      = S.obsBurst phone now := by
  rw [TokenBucket.obsTokens_consume_zero]
  exact obsBurst_getD S phone now

theorem ObsEq_mk (S : RateLimiter) (g' : TokenBucket)
    (R' : List (String × RecipientLimits)) (now : ℚ)
    (hg : g'.obsTokens now = S.global_limiter.obsTokens now)
    (hH : ∀ q, RateLimiter.obsHourly
      { S with global_limiter := g', recipient_limiters := R' } q now = S.obsHourly q now)
    (hD : ∀ q, RateLimiter.obsDaily
      { S with global_limiter := g', recipient_limiters := R' } q now = S.obsDaily q now)
    (hB : ∀ q, RateLimiter.obsBurst
      { S with global_limiter := g', recipient_limiters := R' } q now = S.obsBurst q now) :
    RateLimiter.ObsEq S { S with global_limiter := g', recipient_limiters := R' } now :=
  ⟨rfl, hH, hD, hB, hg⟩

/-- C4 (amended): `check` preserves every observable quantity at the call
instant — the last-message-time map, each recipient's observable window
counts and burst balance, and the observable global balance.  (It does
mutate bookkeeping state; see the counterexample.) -/
theorem RateLimiter.check_preserves_observables (S : RateLimiter)
    (phone : String) (now : ℚ) :
    RateLimiter.ObsEq S ((S.check phone now).2) now := by
  unfold RateLimiter.check
  simp only []
  split
  · exact RateLimiter.ObsEq.refl S now
  · split
    · refine ObsEq_mk S _ _ now ?_ (fun q => rfl) (fun q => rfl) (fun q => rfl)
      exact TokenBucket.obsTokens_consume_zero _ _
    · split
      · refine ObsEq_mk S _ _ now ?_ ?_ ?_ ?_
        · exact TokenBucket.obsTokens_consume_zero _ _
        · intro q
          simp only [RateLimiter.obsHourly]
          by_cases hq : q = phone
          · subst hq
            rw [lookup_dictSet_self]
            exact obsHourly_record_zero S q now
          · rw [lookup_dictSet_ne _ _ _ _ hq]
        · intro q
          simp only [RateLimiter.obsDaily]
          by_cases hq : q = phone
          · subst hq
            rw [lookup_dictSet_self]
            exact obsDaily_getD S q now
          · rw [lookup_dictSet_ne _ _ _ _ hq]
        · intro q
          simp only [RateLimiter.obsBurst]
          by_cases hq : q = phone
          · subst hq
            rw [lookup_dictSet_self]
            exact obsBurst_getD S q now
          · rw [lookup_dictSet_ne _ _ _ _ hq]
      · split
        · refine ObsEq_mk S _ _ now ?_ ?_ ?_ ?_
          · exact TokenBucket.obsTokens_consume_zero _ _
          · intro q
            simp only [RateLimiter.obsHourly]
            by_cases hq : q = phone
            · subst hq
              rw [lookup_dictSet_self]
              exact obsHourly_record_zero S q now
            · rw [lookup_dictSet_ne _ _ _ _ hq, lookup_dictSet_ne _ _ _ _ hq]
          · intro q
            simp only [RateLimiter.obsDaily]
            by_cases hq : q = phone
            · subst hq
              rw [lookup_dictSet_self]
              exact obsDaily_record_zero S q now
            · rw [lookup_dictSet_ne _ _ _ _ hq, lookup_dictSet_ne _ _ _ _ hq]
          · intro q
            simp only [RateLimiter.obsBurst]
            by_cases hq : q = phone
            · subst hq
              rw [lookup_dictSet_self]
              exact obsBurst_getD S q now
            · rw [lookup_dictSet_ne _ _ _ _ hq, lookup_dictSet_ne _ _ _ _ hq]
        · split
          · refine ObsEq_mk S _ _ now ?_ ?_ ?_ ?_
            · exact TokenBucket.obsTokens_consume_zero _ _
            · intro q
              simp only [RateLimiter.obsHourly]
              by_cases hq : q = phone
              · subst hq
                rw [lookup_dictSet_self]
                exact obsHourly_record_zero S q now
              · rw [lookup_dictSet_ne _ _ _ _ hq, lookup_dictSet_ne _ _ _ _ hq,
                  lookup_dictSet_ne _ _ _ _ hq]
            · intro q
              simp only [RateLimiter.obsDaily]
              by_cases hq : q = phone
              · subst hq
                rw [lookup_dictSet_self]
                exact obsDaily_record_zero S q now
              · rw [lookup_dictSet_ne _ _ _ _ hq, lookup_dictSet_ne _ _ _ _ hq,
                  lookup_dictSet_ne _ _ _ _ hq]
            · intro q
              simp only [RateLimiter.obsBurst]
              by_cases hq : q = phone
              · subst hq
                rw [lookup_dictSet_self]
                exact obsBurst_consume_zero S q now
              · rw [lookup_dictSet_ne _ _ _ _ hq, lookup_dictSet_ne _ _ _ _ hq,
                  lookup_dictSet_ne _ _ _ _ hq]
          · refine ObsEq_mk S _ _ now ?_ ?_ ?_ ?_
            · rw [TokenBucket.obsTokens_get_state]
              exact TokenBucket.obsTokens_consume_zero _ _
            · intro q
              simp only [RateLimiter.obsHourly]
              by_cases hq : q = phone
              · subst hq
                rw [lookup_dictSet_self]
                exact obsHourly_record_zero S q now
              · rw [lookup_dictSet_ne _ _ _ _ hq, lookup_dictSet_ne _ _ _ _ hq,
                  lookup_dictSet_ne _ _ _ _ hq]
            · intro q
              simp only [RateLimiter.obsDaily]
              by_cases hq : q = phone
              · subst hq
                rw [lookup_dictSet_self]
                exact obsDaily_record_zero S q now
              · rw [lookup_dictSet_ne _ _ _ _ hq, lookup_dictSet_ne _ _ _ _ hq,
                  lookup_dictSet_ne _ _ _ _ hq]
            · intro q
              simp only [RateLimiter.obsBurst]
              by_cases hq : q = phone
              · subst hq
                rw [lookup_dictSet_self]
                exact obsBurst_consume_zero S q now
              · rw [lookup_dictSet_ne _ _ _ _ hq, lookup_dictSet_ne _ _ _ _ hq,
                  lookup_dictSet_ne _ _ _ _ hq]

/-- Claim C1: the per-recipient hourly/daily bounds are enforced by
`check`, but the global per-minute bound is not: `check` tests the global
bucket with `consume(0)`, which can never fail (tokens never drop below
zero), so with `max_per_minute = 1` and no minimum interval, two
`check_and_record` calls for distinct recipients at the same instant are
both allowed — two allowed sends inside one 60-second window against a
global limit of one. -/
theorem c1_global_limit_not_enforced :
    (RateLimiter.init 1 100 100 0 0).max_per_minute = 1 ∧
    ((RateLimiter.init 1 100 100 0 0).check_and_record "a" 1000).1.allowed = true ∧
    (((RateLimiter.init 1 100 100 0 0).check_and_record "a" 1000).2.check_and_record
        "b" 1000).1.allowed = true := by
  refine ⟨rfl, ?_, ?_⟩ <;> with_unfolding_all decide

/-- Claim C4, counterexample: `check` does mutate the limiter's state —
on a fresh limiter it lazily creates a recipient entry, advances the
global bucket's refill timestamp, and inserts a zero-count entry in the
new recipient's hourly window. -/
theorem c4_check_mutates_state :
    ((RateLimiter.init 10 5 20 5 0).check "x" 30).2 ≠ RateLimiter.init 10 5 20 5 0 := by
  with_unfolding_all decide

/-- Claim C7: token-bucket refill follows the formula
`min(capacity, previous + elapsed * refill_rate)`, is capped at capacity,
is monotone in the observation instant, and consumption never drives the
token count negative. -/
theorem c7_token_bucket (b : TokenBucket) (now t₁ t₂ req : ℚ)
    (hcap : 0 ≤ b.capacity) (htok : 0 ≤ b.tokens) (hrate : 0 ≤ b.refill_rate)
    (hnow : b.last_refill ≤ now) (h12 : t₁ ≤ t₂) :
    (b.refill now).tokens
        = min b.capacity (b.tokens + (now - b.last_refill) * b.refill_rate) ∧
    (b.refill now).tokens ≤ b.capacity ∧
    (b.refill t₁).tokens ≤ (b.refill t₂).tokens ∧
    0 ≤ ((b.consume req now).2).tokens := by
  refine ⟨rfl, min_le_left _ _, ?_, ?_⟩
  · have hmul : (t₁ - b.last_refill) * b.refill_rate
        ≤ (t₂ - b.last_refill) * b.refill_rate :=
      mul_le_mul_of_nonneg_right (by linarith) hrate
    unfold TokenBucket.refill
    exact min_le_min le_rfl (by linarith)
  · have h0 : 0 ≤ min b.capacity (b.tokens + (now - b.last_refill) * b.refill_rate) :=
      le_min hcap (add_nonneg htok (mul_nonneg (by linarith) hrate))
    unfold TokenBucket.consume TokenBucket.refill
    simp only []
    split
    next h => exact sub_nonneg.mpr h
    next h => exact h0

/-- Witness for C7 at a concrete bucket: capacity 3, rate 1/20, 3 tokens,
last refill 0, observed at instants 5, 7 and 10 with one token consumed. -/
theorem c7_token_bucket_witness :
    ((⟨3, 1/20, 3, 0⟩ : TokenBucket).refill 10).tokens
        = min ((⟨3, 1/20, 3, 0⟩ : TokenBucket).capacity)
            ((⟨3, 1/20, 3, 0⟩ : TokenBucket).tokens
              + (10 - (⟨3, 1/20, 3, 0⟩ : TokenBucket).last_refill)
                * (⟨3, 1/20, 3, 0⟩ : TokenBucket).refill_rate) ∧
    ((⟨3, 1/20, 3, 0⟩ : TokenBucket).refill 10).tokens
        ≤ (⟨3, 1/20, 3, 0⟩ : TokenBucket).capacity ∧
    ((⟨3, 1/20, 3, 0⟩ : TokenBucket).refill 5).tokens
        ≤ ((⟨3, 1/20, 3, 0⟩ : TokenBucket).refill 7).tokens ∧
    0 ≤ (((⟨3, 1/20, 3, 0⟩ : TokenBucket).consume 1 10).2).tokens :=
  c7_token_bucket ⟨3, 1/20, 3, 0⟩ 10 5 7 1 (by norm_num) (by norm_num)
    (by norm_num) (by norm_num) (by norm_num)

/-- Claim C9, counterexample: the empty recipient is not always rate
limited — on a fresh limiter with the default configuration, `check("")`
returns `allowed = true`. -/
theorem c9_empty_recipient_check_allowed :
    ((RateLimiter.init 10 5 20 5 0).check "" 100).1.allowed = true := by
  with_unfolding_all decide

/-- Claim C9 (amended): the limiter is a total function (it never
raises), and the empty recipient is an ordinary, distinct bucket:
recording a message for `""` leaves every other recipient's entry and
last-message time untouched. -/
theorem c9_empty_recipient_distinct_bucket (S : RateLimiter) (now : ℚ)
    (r : String) (hr : r ≠ "") :
    ((S.record "" now).recipient_limiters.lookup r
        = S.recipient_limiters.lookup r) ∧
    ((S.record "" now).last_message_times.lookup r
        = S.last_message_times.lookup r) := by
  unfold RateLimiter.record
  simp only []
  exact ⟨lookup_dictSet_ne _ _ _ _ hr, lookup_dictSet_ne _ _ _ _ hr⟩

/-- Witness for C9 on a fresh limiter, recipient `"x"` vs `""`. -/
theorem c9_empty_recipient_distinct_bucket_witness :
    "x" ≠ "" ∧
    ((((RateLimiter.init 10 5 20 5 0).record "" 50).recipient_limiters.lookup "x"
        = (RateLimiter.init 10 5 20 5 0).recipient_limiters.lookup "x") ∧
     (((RateLimiter.init 10 5 20 5 0).record "" 50).last_message_times.lookup "x"
        = (RateLimiter.init 10 5 20 5 0).last_message_times.lookup "x")) :=
  ⟨by decide,
   c9_empty_recipient_distinct_bucket (RateLimiter.init 10 5 20 5 0) 50 "x" (by decide)⟩

theorem pySliceTo_length_le (s : List Char) (n : ℤ) :
    (pySliceTo s n).length ≤ s.length := by
  unfold pySliceTo
  split <;> (rw [List.length_take]; exact min_le_right _ _)

theorem gsTruncate_length (maxL : ℤ) (t : List Char) (h3 : 3 ≤ maxL) :
    pyLen (gsTruncate maxL t) ≤ maxL := by
  unfold gsTruncate
  split
  next h => exact h
  next h =>
    simp only []
    have htr : (pySliceTo t (maxL - 3)).length ≤ (maxL - 3).toNat := by
      unfold pySliceTo
      rw [if_pos (by omega)]
      rw [List.length_take]
      exact min_le_left _ _
    have hfin : ∀ u : List Char, u.length ≤ (maxL - 3).toNat →
        pyLen (u ++ ['.', '.', '.']) ≤ maxL := by
      intro u hu
      unfold pyLen
      rw [List.length_append]
      have h33 : (['.', '.', '.'] : List Char).length = 3 := rfl
      rw [h33]
      have hc : ((maxL - 3).toNat : ℤ) = maxL - 3 := Int.toNat_of_nonneg (by omega)
      have : (u.length : ℤ) ≤ ((maxL - 3).toNat : ℤ) := by exact_mod_cast hu
      push_cast
      omega
    split
    · exact hfin _ (le_trans (pySliceTo_length_le _ _) htr)
    · exact hfin _ htr

theorem gsTruncate_ne_nil (maxL : ℤ) (t : List Char) (h : t ≠ []) :
    gsTruncate maxL t ≠ [] := by
  unfold gsTruncate
  split
  · exact h
  · simp

theorem contentStep_ne_nil (flag : Bool) (name : String) (red : Redactor)
    (st : GuardState) (h : st.1 ≠ []) : (contentStep flag name red st).1 ≠ [] := by
  unfold contentStep
  split
  · exact red.sub_ne_nil _ h
  · exact h

theorem lengthStage_ne_nil (g : GuardrailSystem) (st : GuardState)
    (h : st.1 ≠ []) : (lengthStage g st).1 ≠ [] := by
  unfold lengthStage
  split
  · exact gsTruncate_ne_nil _ _ h
  · exact h

theorem profanityStage_ne_nil (g : GuardrailSystem) (st : GuardState)
    (h : st.1 ≠ []) : (profanityStage g st).1 ≠ [] := by
  unfold profanityStage
  split
  · exact g.profanity_patterns.sub_ne_nil _ h
  · exact h

theorem customSub_ne_nil (l : List CompiledPattern) (s : List Char)
    (h : s ≠ []) : customSub l s ≠ [] := by
  induction l generalizing s with
  | nil => exact h
  | cons c l ih => exact ih _ (c.red.sub_ne_nil s h)

theorem customStage_ne_nil (g : GuardrailSystem) (st : GuardState)
    (h : st.1 ≠ []) : (customStage g st).1 ≠ [] := by
  unfold customStage
  split
  · exact customSub_ne_nil _ _ h
  · exact h

theorem piiStage_ne_nil (g : GuardrailSystem) (st : GuardState)
    (h : st.1 ≠ []) : (piiStage g st).1 ≠ [] := by
  unfold piiStage
  split
  · split
    · exact Redactor.sub_ne_nil _ _ h
    · exact h
  · exact h

theorem guardStages_ne_nil (g : GuardrailSystem) (s : List Char)
    (h : s ≠ []) : (guardStages g s).1 ≠ [] := by
  unfold guardStages
  exact piiStage_ne_nil _ _ (customStage_ne_nil _ _ (profanityStage_ne_nil _ _
    (contentStep_ne_nil _ _ _ _ (contentStep_ne_nil _ _ _ _
      (contentStep_ne_nil _ _ _ _ (contentStep_ne_nil _ _ _ _
        (contentStep_ne_nil _ _ _ _ (lengthStage_ne_nil _ _ h))))))))

/-- Claim C2 (amended): for every configured `max_length ≥ 3`, every
input and every pattern behaviour, the validated `safe_response` fits in
`max_length` — including inputs that grow during redaction, which the
final re-truncation catches.  (For `max_length ≤ 2` the bound fails; see
the counterexample.) -/
theorem c2_validate_length_bound (g : GuardrailSystem) (s : List Char)
    (h3 : 3 ≤ g.max_length) :
    pyLen ((g.validate s).safe_response) ≤ g.max_length := by
  unfold GuardrailSystem.validate
  simp only []
  split
  next hlen =>
    have hmod : gsTruncate g.max_length (guardStages g s).1 ≠ [] := by
      apply gsTruncate_ne_nil
      intro hnil
      rw [hnil] at hlen
      simp only [pyLen, List.length_nil, Nat.cast_zero] at hlen
      omega
    simp only [GuardrailResult.safe_response]
    rw [if_neg (by simpa [List.isEmpty_iff] using hmod)]
    exact gsTruncate_length _ _ h3
  next hlen =>
    push_neg at hlen
    simp only [GuardrailResult.safe_response]
    by_cases hm : (guardStages g s).1.isEmpty
    · rw [if_pos hm]
      have hs : s = [] := by
        by_contra hs
        exact (guardStages_ne_nil g s hs) (List.isEmpty_iff.mp hm)
      rw [hs]
      simp only [pyLen, List.length_nil, Nat.cast_zero]
      omega
    · rw [if_neg hm]
      exact hlen

/-- Witness for C2 at `max_length = 300` on a 400-character input. -/
theorem c2_validate_length_bound_witness :
    3 ≤ (sampleGuard 300).max_length ∧
    pyLen (((sampleGuard 300).validate (List.replicate 400 'a')).safe_response)
      ≤ (sampleGuard 300).max_length :=
  ⟨by norm_num [sampleGuard],
   c2_validate_length_bound (sampleGuard 300) (List.replicate 400 'a')
     (by norm_num [sampleGuard])⟩

/-- Claim C2, counterexample: `max_response_length = 1` passes the
config validator (`1 ≤ x ≤ 1600` in `src/core/config.py`), yet on a
10-character input without spaces, `_truncate`'s Python slice
`text[:max_length - 3]` wraps around and the result (even after the
final re-truncation) has length 12 > 1. -/
theorem c2_small_max_length_violates :
    (sampleGuard 1).max_length < pyLen (((sampleGuard 1).validate
      (List.replicate 10 'a')).safe_response) := by
  with_unfolding_all decide

/-- Claim C10: `add_custom_pattern` returns `True` and appends exactly one
compiled pattern whose source is `p` when compilation succeeds, and
returns `False` leaving the system (hence every later `validate`)
unchanged when `p` is not a valid regular expression. -/
theorem c10_add_custom_pattern (compile : String → Option Redactor)
    (g : GuardrailSystem) (p : String) :
    (GuardrailSystem.add_custom_pattern compile g p).1 = (compile p).isSome ∧
    (GuardrailSystem.add_custom_pattern compile g p).2 =
      (match compile p with
       | some red => { g with custom_patterns := g.custom_patterns ++ [⟨p, red⟩] }
       | none => g) := by
  cases h : compile p <;> simp [GuardrailSystem.add_custom_pattern, h]

/-- Claim C5: `render("{random:a|b}", {})` never returns `"a"` or `"b"`.
The `_process_defaults` pass runs before `_process_random` and its
pattern `\{(\w+):([^}]+)\}` matches `{random:a|b}` (with `random` absent
from the empty context), so the placeholder is replaced by its "default"
`a|b` and the random pass never sees it: for every wall-clock oracle and
every random draw, the result is the literal string `a|b`. -/
theorem c5_random_consumed_by_defaults (strf : List Char → List Char)
    (ctxFmt : List Char → List Char → Option (List Char))
    (rng : ℕ → ℕ) (bv : String → List Char) :
    Template.render strf ctxFmt rng bv "{random:a|b}".data [] = "a|b".data ∧
    "a|b".data ≠ "a".data ∧ "a|b".data ≠ "b".data :=
  ⟨rfl, by decide, by decide⟩

theorem Rule.match_pattern_rule
    (regexSearch : List Char → List Char → Option (List (List Char × List Char)))
    (r : Rule) (p msg : List Char) (m : RuleMatch)
    (h : r.match_pattern regexSearch p msg = some m) : m.rule = r := by
  unfold Rule.match_pattern at h
  cases htype : r.match_type <;> rw [htype] at h <;> dsimp only [] at h
  case regex =>
    cases hre : regexSearch p msg <;> rw [hre] at h
    · cases h
    · cases h; rfl
  all_goals
    (split at h
     · cases h; rfl
     · cases h)

theorem Rule.matches_rule
    (regexSearch : List Char → List Char → Option (List (List Char × List Char)))
    (now : PyTime) (today : String) (r : Rule) (msg : List Char)
    (ctx : Option (List (String × String))) (m : RuleMatch)
    (h : r.matches regexSearch now today msg ctx = some m) : m.rule = r := by
  unfold Rule.matches at h
  split at h
  · cases h
  · split at h
    · cases h
    · split at h
      next m' hfind =>
        cases h
        obtain ⟨p, hp, hmp⟩ := List.exists_of_findSome?_eq_some hfind
        exact Rule.match_pattern_rule _ _ _ _ _ hmp
      next hfind =>
        split at h
        · split at h
          · cases h; rfl
          · cases h
        · cases h

theorem mem_insertDesc (y r : Rule) (l : List Rule) (h : y ∈ insertDesc r l) :
    y = r ∨ y ∈ l := by
  induction l with
  | nil => simpa [insertDesc] using h
  | cons x xs ih =>
    unfold insertDesc at h
    split at h
    · rcases List.mem_cons.mp h with rfl | h
      · exact Or.inl rfl
      · exact Or.inr h
    · rcases List.mem_cons.mp h with rfl | h
      · exact Or.inr (List.mem_cons_self _ _)
      · rcases ih h with rfl | h
        · exact Or.inl rfl
        · exact Or.inr (List.mem_cons_of_mem _ h)

theorem sorted_insertDesc (r : Rule) (l : List Rule)
    (h : l.Sorted (fun x y => y.priority ≤ x.priority)) :
    (insertDesc r l).Sorted (fun x y => y.priority ≤ x.priority) := by
  induction l with
  | nil => simp [insertDesc]
  | cons x xs ih =>
    rw [List.sorted_cons] at h
    obtain ⟨hx, hxs⟩ := h
    unfold insertDesc
    split
    next hlt =>
      rw [List.sorted_cons]
      refine ⟨?_, by rw [List.sorted_cons]; exact ⟨hx, hxs⟩⟩
      intro y hy
      rcases List.mem_cons.mp hy with rfl | hy
      · exact le_of_lt hlt
      · exact le_trans (hx y hy) (le_of_lt hlt)
    next hge =>
      rw [List.sorted_cons]
      refine ⟨?_, ih hxs⟩
      intro y hy
      rcases mem_insertDesc y r xs hy with rfl | hy
      · exact le_of_not_lt hge
      · exact hx y hy

theorem sorted_foldl_insertDesc (l acc : List Rule)
    (hacc : acc.Sorted (fun x y => y.priority ≤ x.priority)) :
    (l.foldl (fun a r => insertDesc r a) acc).Sorted
      (fun x y => y.priority ≤ x.priority) := by
  induction l generalizing acc with
  | nil => exact hacc
  | cons x xs ih => exact ih _ (sorted_insertDesc x acc hacc)

theorem add_rule_sorted (e : RulesEngine) (r : Rule) :
    ((e.add_rule r).rules).Sorted (fun x y => y.priority ≤ x.priority) :=
  sorted_foldl_insertDesc _ [] (by simp)

/-- Claim C6: with two enabled, condition-free rules that both match,
one at priority 90 and one at priority 10, `match()` returns the
priority-90 rule's match whichever order the rules were added, and that
match's `rule` is the priority-90 rule; in general `add_rule` keeps the
rule list sorted in descending priority, and `match` takes the first
match in that order. -/
theorem c6_priority_90_wins
    (regexSearch : List Char → List Char → Option (List (List Char × List Char)))
    (now : PyTime) (today : String) (a b : Rule) (msg : List Char)
    (ctx : Option (List (String × String)))
    (hpa : a.priority = 90) (hpb : b.priority = 10)
    (hma : (Rule.matches regexSearch now today a msg ctx).isSome = true)
    (_hmb : (Rule.matches regexSearch now today b msg ctx).isSome = true) :
    ((RulesEngine.init.add_rule b).add_rule a).matchMessage regexSearch now today msg ctx
        = a.matches regexSearch now today msg ctx ∧
    ((RulesEngine.init.add_rule a).add_rule b).matchMessage regexSearch now today msg ctx
        = a.matches regexSearch now today msg ctx ∧
    (∀ m, a.matches regexSearch now today msg ctx = some m → m.rule = a) ∧
    (∀ (e : RulesEngine) (r : Rule),
      ((e.add_rule r).rules).Sorted (fun x y => y.priority ≤ x.priority)) := by
  have h1 : ((RulesEngine.init.add_rule b).add_rule a).rules = [a, b] := by
    simp [RulesEngine.init, RulesEngine.add_rule, sortRulesDesc, insertDesc, hpa, hpb]
  have h2 : ((RulesEngine.init.add_rule a).add_rule b).rules = [a, b] := by
    simp [RulesEngine.init, RulesEngine.add_rule, sortRulesDesc, insertDesc, hpa, hpb]
  obtain ⟨m, hm⟩ := Option.isSome_iff_exists.mp hma
  refine ⟨?_, ?_, ?_, ?_⟩
  · unfold RulesEngine.matchMessage
    rw [h1, List.findSome?_cons, hm]
  · unfold RulesEngine.matchMessage
    rw [h2, List.findSome?_cons, hm]
  · intro m' hm'
    exact Rule.matches_rule _ _ _ _ _ _ _ hm'
  · intro e r
    exact add_rule_sorted e r

/-- Witness for C6 on two concrete `contains` rules and the message
`"why hello there"`. -/
theorem c6_priority_90_wins_witness :
    ((RulesEngine.init.add_rule ruleHi10).add_rule ruleHi90).matchMessage
        (fun _ _ => Option.none) ⟨12, 0⟩ "Monday" "why hello there".data Option.none
      = ruleHi90.matches (fun _ _ => Option.none) ⟨12, 0⟩ "Monday"
          "why hello there".data Option.none ∧
    ((RulesEngine.init.add_rule ruleHi90).add_rule ruleHi10).matchMessage
        (fun _ _ => Option.none) ⟨12, 0⟩ "Monday" "why hello there".data Option.none
      = ruleHi90.matches (fun _ _ => Option.none) ⟨12, 0⟩ "Monday"
          "why hello there".data Option.none ∧
    (∀ m, ruleHi90.matches (fun _ _ => Option.none) ⟨12, 0⟩ "Monday"
          "why hello there".data Option.none = some m → m.rule = ruleHi90) ∧
    (∀ (e : RulesEngine) (r : Rule),
      ((e.add_rule r).rules).Sorted (fun x y => y.priority ≤ x.priority)) :=
  c6_priority_90_wins (fun _ _ => Option.none) ⟨12, 0⟩ "Monday" ruleHi90 ruleHi10
    "why hello there".data Option.none rfl rfl rfl rfl

theorem get_fallback_response_mem (k : ℕ) :
    GuardrailSystem.get_fallback_response k ∈ FALLBACK_RESPONSES ∧
    GuardrailSystem.get_fallback_response k ≠ [] := by
  have hlen : FALLBACK_RESPONSES.length = 4 := rfl
  unfold GuardrailSystem.get_fallback_response pyChoice
  rw [hlen]
  have h4 : k % 4 = 0 ∨ k % 4 = 1 ∨ k % 4 = 2 ∨ k % 4 = 3 := by omega
  rcases h4 with h | h | h | h <;> rw [h] <;> exact ⟨by decide, by decide⟩

/-- Claim C3: with `fallback_to_rules` disabled, the provider error does
NOT propagate to the caller of `respond()`.  The inner
`_generate_ai_response` does re-raise the `LLMError` (second conjunct),
but `respond`'s surrounding `except Exception` swallows it and falls
through to the rules/fallback path, returning a normal result (first
conjunct). -/
theorem c3_provider_error_swallowed :
    (sampleResponderC3.respond (.error "boom") (fun _ _ => Option.none) ⟨12, 0⟩
        "Monday" [] [] 0 0 "hi".data "+15551234567").source = "fallback" ∧
    sampleResponderC3.generate_ai_response (.error "boom") = .error "boom" :=
  ⟨rfl, rfl⟩

/-- Claim C8: AI mode enabled, provider configured, the provider call
raises, `fallback_to_rules` is true, and no rule matches the incoming
message: `respond()` returns `source="fallback"` with a non-empty
response drawn from the fixed `FALLBACK_RESPONSES` set. -/
theorem c8_provider_error_fallback (A : AIResponder) (err : String)
    (regexSearch : List Char → List Char → Option (List (List Char × List Char)))
    (now : PyTime) (today : String) (now_date now_time : List Char)
    (rngRule rngFallback : ℕ) (incoming : List Char) (phone : String)
    (hai : A.ai_mode_enabled = true) (hllm : A.llm_configured = true)
    (hfb : A.fallback_to_rules = true)
    (hnomatch : ∀ eng, A.rules_engine = some eng →
      eng.matchMessage regexSearch now today incoming (some [("sender", phone)])
        = Option.none) :
    (A.respond (.error err) regexSearch now today now_date now_time rngRule
        rngFallback incoming phone).source = "fallback" ∧
    (A.respond (.error err) regexSearch now today now_date now_time rngRule
        rngFallback incoming phone).response ∈ FALLBACK_RESPONSES ∧
    (A.respond (.error err) regexSearch now today now_date now_time rngRule
        rngFallback incoming phone).response ≠ [] := by
  unfold AIResponder.respond AIResponder.generate_ai_response
  simp only [hai, hllm, hfb, Bool.and_self, if_true]
  cases heng : A.rules_engine with
  | none =>
    exact ⟨rfl, (get_fallback_response_mem rngFallback).1,
      (get_fallback_response_mem rngFallback).2⟩
  | some eng =>
    dsimp only
    rw [hnomatch eng heng]
    exact ⟨rfl, (get_fallback_response_mem rngFallback).1,
      (get_fallback_response_mem rngFallback).2⟩

/-- Witness for C8 on a concrete responder whose one rule does not match
the message `"zzz"`. -/
theorem c8_provider_error_fallback_witness :
    (sampleResponderC8.respond (.error "boom") (fun _ _ => Option.none) ⟨12, 0⟩
        "Monday" [] [] 0 0 "zzz".data "+15551234567").source = "fallback" ∧
    (sampleResponderC8.respond (.error "boom") (fun _ _ => Option.none) ⟨12, 0⟩
        "Monday" [] [] 0 0 "zzz".data "+15551234567").response ∈ FALLBACK_RESPONSES ∧
    (sampleResponderC8.respond (.error "boom") (fun _ _ => Option.none) ⟨12, 0⟩
        "Monday" [] [] 0 0 "zzz".data "+15551234567").response ≠ [] :=
  c8_provider_error_fallback sampleResponderC8 "boom" (fun _ _ => Option.none)
    ⟨12, 0⟩ "Monday" [] [] 0 0 "zzz".data "+15551234567" rfl rfl rfl
    (by
      intro eng heng
      have h : some (RulesEngine.init.add_rule ruleHi90) = some eng := heng
      cases h
      rfl)
